import Mathlib

/-!
# The native library load hook

A verification development for `app/src/main/cpp/native-lib.cpp`.  The file
holds one function,

    JNI_OnLoad(JavaVM* vm, void* reserved) { return JNI_VERSION_1_6; }

which the Java runtime calls when it attaches the native library.

The embedding is shallow.  C code that may fault or touch process state is a
computation in `Native`, a state-and-exception monad over an explicit process
state `ProcState`; the body of `JNI_OnLoad` is translated statement by
statement into it.  The state carries a trace of the operations performed, so
that "no dereference, no allocation, no call" is a property of the state.
-/

set_option linter.unusedVariables false

namespace NativeLib

/-! ## Data model -/

/-- A C pointer value, given by the address it holds; address 0 is null. -/
abbrev Ptr := Nat

/-- The null pointer. -/
def NULL : Ptr := 0

/-- The C type `JavaVM*`. -/
abbrev JavaVMPtr := Ptr

/-- The C type `void*`. -/
abbrev VoidPtr := Ptr

/-- The JNI type `jint`, a signed 32-bit integer; values are kept as integers
and the 32-bit range is stated where it matters. -/
abbrev jint := Int

/-- Modelled from the spec: the "fixed version constant" the load hook returns,
the macro `JNI_VERSION_1_6` of the platform header `jni.h`.  The header is
included by the source file but is not part of the repository; the numeric
value is the one the JNI headers give the macro, `0x00010006`. -/
def JNI_VERSION_1_6 : jint := 0x00010006

/-- Modelled from the spec: the generic JNI error code, the macro `JNI_ERR` of
the platform header `jni.h` (not part of the repository), `-1`. -/
def JNI_ERR : jint := -1

/-- An operation a native function can perform on the process. -/
inductive Event where
  | deref (p : Ptr)
  | alloc (size : Nat)
  | call (fn : String)
  | store (p : Ptr)
  deriving DecidableEq, Repr

/-- The ways a native function can fail. -/
inductive Fault where
  | nullDeref
  | outOfMemory
  | exception (msg : String)
  | abort
  deriving DecidableEq, Repr

/-- The process state a native function can observe or change. -/
structure ProcState where
  /-- Contents of memory, as address and word pairs. -/
  mem : List (Ptr × Int)
  /-- Global, process-wide variables. -/
  globals : List (String × Int)
  /-- Native interfaces registered with the runtime. -/
  natives : List String
  /-- Handles kept for later use. -/
  handles : List Ptr
  /-- Live heap allocations, as address and size pairs. -/
  heap : List (Ptr × Nat)
  /-- Operations performed so far, most recent first. -/
  trace : List Event
  deriving DecidableEq, Repr

/-- Native code: a computation over the process state that may fault. -/
abbrev Native := StateT ProcState (Except Fault)

/-- The value a finished computation returned, if it did not fault. -/
def value? {α : Type} : Except Fault (α × ProcState) → Option α
  | .ok (a, _) => some a
  | .error _ => none

/-- The process state a finished computation left, if it did not fault. -/
def state? {α : Type} : Except Fault (α × ProcState) → Option ProcState
  | .ok (_, s) => some s
  | .error _ => none

/-- The fault a finished computation raised, if any. -/
def fault? {α : Type} : Except Fault (α × ProcState) → Option Fault
  | .ok _ => none
  | .error e => some e

/-! ## Primitive operations of native code

These are the effects C code has at its disposal.  `JNI_OnLoad` uses none of
them; they fix what "fallible operation" and "side effect" mean in the model. -/

/-- Reading through a pointer: faults on null, is recorded in the trace. -/
def deref (p : Ptr) : Native Int := fun s =>
  if p = NULL then .error Fault.nullDeref
  else .ok ((s.mem.lookup p).getD 0, { s with trace := Event.deref p :: s.trace })

/-- Keeping a handle for later use. -/
def storeHandle (p : Ptr) : Native Unit := fun s =>
  .ok ((), { s with handles := p :: s.handles, trace := Event.store p :: s.trace })

/-- Heap allocation of `size` bytes out of `limit`: faults when over the limit. -/
def alloc (limit size : Nat) : Native Ptr := fun s =>
  let used := (s.heap.map Prod.snd).sum
  if used + size > limit then .error Fault.outOfMemory
  else
    let p := used + 1
    .ok (p, { s with heap := (p, size) :: s.heap, trace := Event.alloc size :: s.trace })

/-- Registering a native interface with the runtime. -/
def registerNative (fn : String) : Native Unit := fun s =>
  .ok ((), { s with natives := fn :: s.natives, trace := Event.call fn :: s.trace })

/-! ## The source function -/

/-- The load hook of `native-lib.cpp`:
`JNI_OnLoad(JavaVM* vm, void* reserved) { return JNI_VERSION_1_6; }`. -/
def JNI_OnLoad (vm : JavaVMPtr) (reserved : VoidPtr) : Native jint := do
  return JNI_VERSION_1_6

/-- The host invoking the load hook once per entry of `calls`, in order, and
collecting the returned values. -/
def invokeAll : List (JavaVMPtr × VoidPtr) → Native (List jint)
  | [] => pure []
  | (vm, reserved) :: rest => do
    let r ← JNI_OnLoad vm reserved
    let rs ← invokeAll rest
    pure (r :: rs)

/-- A sample process state with memory, globals, stored handles and a trace. -/
def sampleState : ProcState :=
  { mem := [(4096, 7)], globals := [("loaded", 0)], natives := ["init"],
    handles := [4096], heap := [(1, 16)], trace := [Event.alloc 16] }

/-! ## Lemmas -/

/-- Running the load hook: it finishes with the version constant and the state
it was started in. -/
theorem JNI_OnLoad_run (vm : JavaVMPtr) (reserved : VoidPtr) (s : ProcState) :
    (JNI_OnLoad vm reserved).run s = .ok (JNI_VERSION_1_6, s) := rfl

/-- Running a sequence of invocations: it finishes, every returned value is the
version constant, and the state is the one it was started in. -/
theorem invokeAll_run (calls : List (JavaVMPtr × VoidPtr)) (s : ProcState) :
    (invokeAll calls).run s = .ok (List.replicate calls.length JNI_VERSION_1_6, s) := by
  induction calls with
  | nil => rfl
  | cons c rest ih =>
    obtain ⟨vm, reserved⟩ := c
    have hstep : (invokeAll ((vm, reserved) :: rest)).run s
        = (do
            let p ← (invokeAll rest).run s
            pure (JNI_VERSION_1_6 :: p.1, p.2) : Except Fault (List jint × ProcState)) := rfl
    rw [hstep, ih]
    rfl

/-- The model can fail: reading through a null pointer faults. -/
theorem deref_null_faults (s : ProcState) :
    fault? ((deref NULL).run s) = some Fault.nullDeref := rfl

/-- The model can change state: keeping a handle is visible in the state. -/
theorem storeHandle_changes_state :
    state? ((storeHandle 4096).run sampleState) ≠ some sampleState := by
  decide

/-! ## The claims -/

/-- C1: for every pair of input handles, a null `vm` and a null `reserved`
included, and from every process state, `JNI_OnLoad` returns the fixed version
constant `JNI_VERSION_1_6`; in particular so for both handles null and for a
non-null `vm` with a null `reserved`. -/
theorem JNI_OnLoad_returns_version :
    (∀ (vm : JavaVMPtr) (reserved : VoidPtr) (s : ProcState),
        value? ((JNI_OnLoad vm reserved).run s) = some JNI_VERSION_1_6) ∧
    (∀ s : ProcState, value? ((JNI_OnLoad NULL NULL).run s) = some JNI_VERSION_1_6) ∧
    (∀ (vm : JavaVMPtr) (s : ProcState), vm ≠ NULL →
        value? ((JNI_OnLoad vm NULL).run s) = some JNI_VERSION_1_6) ∧
    value? ((JNI_OnLoad 4096 NULL).run sampleState) = some JNI_VERSION_1_6 :=
  ⟨fun _ _ _ => rfl, fun _ => rfl, fun _ _ _ => rfl, rfl⟩

/-- C2: the load hook is idempotent.  Every finite sequence of invocations,
with any arguments at each invocation, runs to the end and yields one value per
invocation, each equal to the value of the first invocation, and leaves the
process state as it was; in particular two invocations in a row return
identical values. -/
theorem JNI_OnLoad_idempotent :
    (∀ (calls : List (JavaVMPtr × VoidPtr)) (s : ProcState),
        ∃ rs : List jint,
          (invokeAll calls).run s = .ok (rs, s) ∧
          rs.length = calls.length ∧
          ∀ i : Fin rs.length, some (rs.get i) = rs.head?) ∧
    (∀ (a b : JavaVMPtr × VoidPtr) (s : ProcState),
        ∃ r : jint, (invokeAll [a, b]).run s = .ok ([r, r], s)) ∧
    (∀ (a b : JavaVMPtr × VoidPtr) (s : ProcState),
        value? ((JNI_OnLoad a.1 a.2).run s) = value? ((JNI_OnLoad b.1 b.2).run s)) := by
  refine ⟨fun calls s => ?_, fun a b s => ⟨JNI_VERSION_1_6, invokeAll_run [a, b] s⟩,
    fun _ _ _ => rfl⟩
  refine ⟨List.replicate calls.length JNI_VERSION_1_6, invokeAll_run calls s, by simp, ?_⟩
  rintro ⟨i, hi⟩
  have hget : (List.replicate calls.length JNI_VERSION_1_6).get ⟨i, hi⟩ = JNI_VERSION_1_6 := by
    simp
  rw [hget]
  cases calls with
  | nil => simp at hi
  | cons c rest => rfl

/-- C3: `JNI_OnLoad` never fails.  For every input and every process state the
run takes the success branch and yields a value, raises no fault, and performs
no operation: the trace of dereferences, allocations, calls and stores is the
one it started with. -/
theorem JNI_OnLoad_never_fails (vm : JavaVMPtr) (reserved : VoidPtr) (s : ProcState) :
    (∃ (v : jint) (s' : ProcState), (JNI_OnLoad vm reserved).run s = .ok (v, s')) ∧
    fault? ((JNI_OnLoad vm reserved).run s) = none ∧
    (∀ e : Fault, (JNI_OnLoad vm reserved).run s ≠ .error e) ∧
    (state? ((JNI_OnLoad vm reserved).run s)).map ProcState.trace = some s.trace := by
  refine ⟨⟨JNI_VERSION_1_6, s, rfl⟩, rfl, fun e h => ?_, rfl⟩
  rw [JNI_OnLoad_run] at h
  cases h

/-- C4: `JNI_OnLoad` has no side effects.  For every process state and every
input the state after the call is the state before it (memory, globals,
registered interfaces, stored handles, heap and trace alike), and the outcome
depends neither on the two handles nor on what memory holds, so neither handle
is read through or stored. -/
theorem JNI_OnLoad_no_side_effects (vm : JavaVMPtr) (reserved : VoidPtr) (s : ProcState) :
    state? ((JNI_OnLoad vm reserved).run s) = some s ∧
    (∀ (vm' : JavaVMPtr) (reserved' : VoidPtr),
        (JNI_OnLoad vm' reserved').run s = (JNI_OnLoad vm reserved).run s) ∧
    (∀ s' : ProcState,
        value? ((JNI_OnLoad vm reserved).run s') = value? ((JNI_OnLoad vm reserved).run s)) ∧
    (state? ((JNI_OnLoad vm reserved).run s)).map ProcState.handles = some s.handles ∧
    (state? ((JNI_OnLoad vm reserved).run s)).map ProcState.trace = some s.trace :=
  ⟨rfl, fun _ _ => rfl, fun _ => rfl, rfl, rfl⟩

/-- C5: the value `JNI_OnLoad` returns is `0x00010006`, that is 65542, with
major version 1 in the high 16 bits and minor version 6 in the low 16 bits; it
lies in the signed 32-bit range, is strictly positive, and so differs from
`JNI_ERR` and from every negative code. -/
theorem JNI_OnLoad_value (vm : JavaVMPtr) (reserved : VoidPtr) (s : ProcState) :
    ∃ v : jint,
      value? ((JNI_OnLoad vm reserved).run s) = some v ∧
      v = 0x00010006 ∧ v = 65542 ∧
      v / 2 ^ 16 = 1 ∧ v % 2 ^ 16 = 6 ∧
      -(2 ^ 31) ≤ v ∧ v < 2 ^ 31 ∧
      0 < v ∧ v ≠ JNI_ERR ∧ ∀ e : jint, e < 0 → v ≠ e := by
  refine ⟨JNI_VERSION_1_6, rfl, rfl, rfl, by decide, by decide, by decide, by decide,
    by decide, by decide, fun e he h => ?_⟩
  have hpos : (0 : Int) < JNI_VERSION_1_6 := by decide
  have hepos : (0 : Int) < e := h ▸ hpos
  exact lt_asymm hepos he

end NativeLib
